import Mathlib

/-!
Verification of the Automated Pricing Engine of
`backend/app/services/pricing_service.py` (with the entities of
`backend/app/models/{product,supplier,price_history}.py` and the request
schemas of `backend/app/schemas/pricing.py`).

Python `Decimal` amounts are modelled as exact rationals (`ℚ`); the service
quantizes with `Decimal.quantize(Decimal("0.01"), rounding=ROUND_HALF_UP)`,
modelled by `Pricing.q2` (round half away from zero to cents).  Intermediate
`Decimal` divisions carry 28 significant digits in Python; for the magnitudes
handled here the quantized results agree with exact rational arithmetic.
Python truthiness on optional numbers (`if rule.min_margin ...`, where both
`None` and `0` are falsy) is modelled explicitly.

The service dataflow is embedded twice.  The plain definitions follow the
statements of `pricing_service.py` as written.  The `...Orm` definitions
(after the declarative attribute lists, section "The declarative ORM
boundary") additionally check every attribute access and constructor
keyword against the attributes the mapped classes of `backend/app/models`
actually declare, raising `AttributeError` / `TypeError` exactly where the
Python interpreter does; they are the execution-faithful embedding, and
under them large parts of the written dataflow are dead code.
-/

namespace Pricing

/-- `Decimal.quantize(Decimal("0.01"), rounding=ROUND_HALF_UP)`:
round to two decimal places, halves away from zero. -/
def q2 (x : ℚ) : ℚ :=
  if 0 ≤ x then ((⌊x * 100 + 1/2⌋ : ℤ) : ℚ) / 100
  else -(((⌊(-x) * 100 + 1/2⌋ : ℤ) : ℚ) / 100)

/-- Python truthiness of an optional `Decimal` (`None` and `0` are falsy). -/
def dtruthy : Option ℚ → Bool
  | none => false
  | some v => v ≠ 0

/-- Python truthiness of an optional integer id (`None` and `0` are falsy). -/
def ntruthy : Option Nat → Bool
  | none => false
  | some v => v ≠ 0

/-- `Product` (`backend/app/models/product.py`): the pricing-relevant columns.
`price_rounding` is the per-product rounding policy column
(`nearest_99`, `nearest_95`, `none`); `min_margin_percent` /
`max_margin_percent` are the per-product margin bounds. -/
structure Product where
  id : Nat
  brand_id : Option Nat
  base_cost : ℚ
  retail_price : ℚ
  min_margin_percent : ℚ
  max_margin_percent : ℚ
  price_rounding : String
  deriving Repr, DecidableEq

/-- `PriceAdjustmentRule` carrying the attributes the service code
addresses (`rule.product_id`, `rule.category_id`, `rule.brand_id`,
`rule.adjustment_type`, `rule.adjustment_value`, `rule.min_margin`,
`rule.max_margin`): the values the statements of
`pricing_service.py` are written against.  The mapped class declares
`rule_type`, `priority` and `is_active` but none of the scope, adjustment
or margin columns (see `priceAdjustmentRuleAttrs`), so on a real row each
of those reads raises `AttributeError` — the `...Orm` definitions model
that. -/
structure Rule where
  id : Nat
  name : String
  rule_type : String
  product_id : Option Nat
  category_id : Option Nat
  brand_id : Option Nat
  adjustment_type : String
  adjustment_value : ℚ
  min_margin : Option ℚ
  max_margin : Option ℚ
  priority : Int
  is_active : Bool
  deriving Repr, DecidableEq

/-- A `PriceHistory` row as the constructor calls of the service are
written (`PriceHistory(product_id=, supplier_id=, price_type=, old_price=,
new_price=, change_source=, change_reason=, changed_by=)`).  The mapped
class declares none of `price_type`, `old_price`, `new_price`,
`change_source`, `change_reason`, `changed_by` (see `priceHistoryAttrs`),
so every such call raises `TypeError` and no row of this shape is ever
persisted; the structure records the values the calls pass. -/
structure HistoryRow where
  product_id : Nat
  supplier_id : Option Nat
  price_type : String
  old_price : ℚ
  new_price : ℚ
  change_source : String
  change_reason : String
  changed_by : Option Nat
  deriving Repr, DecidableEq

/-- A `PriceAdjustmentLog` row as the service constructs it; `status` takes
the model column default `"applied"`.  The mapped class declares neither
`cost_at_adjustment` nor `margin_achieved` (see
`priceAdjustmentLogAttrs`), so the constructor call raises `TypeError`. -/
structure LogRow where
  product_id : Nat
  rule_id : Nat
  old_price : ℚ
  new_price : ℚ
  cost_at_adjustment : ℚ
  margin_achieved : ℚ
  status : String
  deriving Repr, DecidableEq

/-- `ProductSupplier` (`backend/app/models/supplier.py`): link row with the
current `cost_price`, the previous `last_cost_price` kept for diffing, and
the check timestamps (modelled as abstract instants). -/
structure ProductSupplier where
  id : Nat
  product_id : Nat
  supplier_id : Nat
  supplier_sku : Option String
  cost_price : ℚ
  last_cost_price : Option ℚ
  last_checked_at : Option Nat
  last_price_change_at : Option Nat
  is_active : Bool
  deriving Repr, DecidableEq

/-- The transactional state the pricing service touches: products, rules,
product-supplier links, and the two append-only audit tables. -/
structure DB where
  products : List Product
  rules : List Rule
  productSuppliers : List ProductSupplier
  history : List HistoryRow
  logs : List LogRow
  deriving Repr, DecidableEq

/-- `select(Product).where(Product.id == product_id)` + `scalar_one_or_none`. -/
def DB.findProduct (db : DB) (pid : Nat) : Option Product :=
  db.products.find? (fun p => p.id = pid)

/-- `select(PriceAdjustmentRule).where(PriceAdjustmentRule.id == rule_id)`. -/
def DB.findRule (db : DB) (rid : Nat) : Option Rule :=
  db.rules.find? (fun r => r.id = rid)

/-- Persist an updated product object (the ORM mutates the identity-mapped
row in place; modelled as replacement by id). -/
def DB.setProduct (db : DB) (p : Product) : DB :=
  { db with products := db.products.map (fun q => if q.id = p.id then p else q) }

/-- Persist an updated product-supplier row, by id. -/
def DB.setPS (db : DB) (ps : ProductSupplier) : DB :=
  { db with productSuppliers :=
      db.productSuppliers.map (fun q => if q.id = ps.id then ps else q) }

/-- The raw candidate price of `apply_adjustment_rule`, by
`rule.adjustment_type`: cost-plus-percentage, fixed markup, or cost
multiplier; any other type raises `BusinessLogicError`. -/
def rawCandidate (rule : Rule) (cost : ℚ) : Except String ℚ :=
  match rule.adjustment_type with
  | "percentage" => pure (cost + cost * (rule.adjustment_value / 100))
  | "fixed" => pure (cost + rule.adjustment_value)
  | "multiplier" => pure (cost * rule.adjustment_value)
  | other => throw ("Unknown adjustment type: " ++ other)

/-- `margin = ((new_price - cost) / new_price * 100) if new_price > 0 else 0`. -/
def marginOf (price cost : ℚ) : ℚ :=
  if 0 < price then (price - cost) / price * 100 else 0

/-- The price at which the margin percent equals exactly `m`, re-rounded:
`(cost / (1 - m / 100)).quantize(...)`.  `Decimal` raises on division by
zero (`m = 100`), modelled as an error. -/
def marginPrice (cost m : ℚ) : Except String ℚ :=
  if 1 - m / 100 = 0 then throw "DivisionByZero"
  else pure (q2 (cost / (1 - m / 100)))

/-- `cost = base_cost or product.base_cost` (Python `or`: a `None` or zero
`base_cost` argument falls back to the product's stored cost). -/
def costOf (base_cost : Option ℚ) (product : Product) : ℚ :=
  if dtruthy base_cost then base_cost.getD 0 else product.base_cost

/-- The candidate-price computation of `apply_adjustment_rule`
(`pricing_service.py`): markup by `adjustment_type`, quantize to cents,
compute the margin percent of the rounded candidate, then clamp first to
the rule's `min_margin` and then to its `max_margin` — both guarded by
Python truthiness and both compared against the margin of the *raw*
rounded candidate.  Returns `(new_price, margin)` where `margin` is that
raw margin (the value later logged as `margin_achieved`). -/
def adjustedPrice (rule : Rule) (cost : ℚ) : Except String (ℚ × ℚ) := do
  let raw ← rawCandidate rule cost
  let p0 := q2 raw
  let margin := marginOf p0 cost
  let p1 ← if dtruthy rule.min_margin ∧ margin < rule.min_margin.getD 0 then
      marginPrice cost (rule.min_margin.getD 0)
    else pure p0
  let p2 ← if dtruthy rule.max_margin ∧ rule.max_margin.getD 0 < margin then
      marginPrice cost (rule.max_margin.getD 0)
    else pure p1
  pure (p2, margin)

/-- `apply_adjustment_rule(product_id, rule_id, base_cost)`: look up product
and rule, resolve the cost through Python `or`-fallback and the
`if not cost` guard, compute the adjusted price, and when it differs from
the stored `retail_price` append one `PriceHistory` row, one
`PriceAdjustmentLog` row and persist the new price.  Errors model the raised
`NotFoundError` / `BusinessLogicError` / `Decimal` exceptions.  This is the
dataflow the function text is written to perform; `applyAdjustmentRuleOrm`
re-runs it against the declared ORM attributes, where the
`rule.adjustment_type` read raises `AttributeError` before any price is
computed. -/
def applyAdjustmentRule (db : DB) (product_id rule_id : Nat)
    (base_cost : Option ℚ) : Except String DB := do
  let some product := db.findProduct product_id | throw "NotFound: Product"
  let some rule := db.findRule rule_id | throw "NotFound: Price adjustment rule"
  let cost := costOf base_cost product
  if cost = 0 then throw "No cost available for price calculation"
  let old_price := product.retail_price
  let (new_price, margin) ← adjustedPrice rule cost
  if new_price ≠ old_price then
    let h : HistoryRow :=
      { product_id := product_id, supplier_id := none, price_type := "retail",
        old_price := old_price, new_price := new_price,
        change_source := "rule_application",
        change_reason := "Rule: " ++ rule.name, changed_by := none }
    let l : LogRow :=
      { product_id := product_id, rule_id := rule_id, old_price := old_price,
        new_price := new_price, cost_at_adjustment := cost,
        margin_achieved := margin, status := "applied" }
    let db := { db with history := db.history ++ [h], logs := db.logs ++ [l] }
    pure (db.setProduct { product with retail_price := new_price })
  else
    pure db

/-- The rule query of `_check_auto_adjust`: active rules of `rule_type`
`"cost_plus"`, ordered by `priority` descending (the SQL leaves tie order
unspecified; a stable insertion sort fixes one). -/
def autoAdjustCandidates (rules : List Rule) : List Rule :=
  (rules.filter (fun r => r.is_active && r.rule_type == "cost_plus")).insertionSort
    (fun a b => b.priority ≤ a.priority)

/-- The rule-matching loop of `_check_auto_adjust`: a product-scoped match
or a brand-scoped match `break`s immediately; a rule with a category scope
is skipped (`pass`); a global rule (all three scope ids falsy) overwrites
the accumulator and the scan continues; anything else is skipped. -/
def resolveLoop (p : Product) (acc : Option Rule) : List Rule → Option Rule
  | [] => acc
  | r :: rs =>
    if ntruthy r.product_id && r.product_id == some p.id then some r
    else if ntruthy r.category_id then resolveLoop p acc rs
    else if ntruthy r.brand_id && r.brand_id == p.brand_id then some r
    else if !ntruthy r.product_id && !ntruthy r.category_id && !ntruthy r.brand_id then
      resolveLoop p (some r) rs
    else resolveLoop p acc rs

/-- The rule `_check_auto_adjust` settles on for a product, if any. -/
def selectAutoRule (p : Product) (rules : List Rule) : Option Rule :=
  resolveLoop p none (autoAdjustCandidates rules)

/-- `_check_auto_adjust(product, new_cost)`: resolve a rule and, when one
applies, run `apply_adjustment_rule(product.id, rule.id, new_cost)`.
`checkAutoAdjustOrm` is the execution-faithful version: the loop body
raises `AttributeError` at `rule.product_id` on its first iteration, so the
resolution never completes when any candidate exists. -/
def checkAutoAdjust (db : DB) (p : Product) (new_cost : ℚ) : Except String DB :=
  match selectAutoRule p db.rules with
  | some rule => applyAdjustmentRule db p.id rule.id (some new_cost)
  | none => pure db

/-- One entry of the per-product `errors` list of a batch result. -/
structure BatchError where
  product_id : Nat
  error : String
  deriving Repr, DecidableEq

/-- The result dictionary of `bulk_price_update` (timestamp omitted). -/
structure BulkResult where
  products_processed : Nat
  products_updated : Nat
  errors : List BatchError
  deriving Repr, DecidableEq

/-- The raw bulk candidate price by adjustment type (`percentage` /
`fixed` / `set`); `none` models the "Invalid adjustment type" branch. -/
def bulkCandidate (ty : String) (v old : ℚ) : Option ℚ :=
  match ty with
  | "percentage" => some (old + old * (v / 100))
  | "fixed" => some (old + v)
  | "set" => some v
  | _ => none

/-- The request schema `BulkPriceUpdate` (`backend/app/schemas/pricing.py`):
note the `preview_only` flag ("If true, only return preview without
applying"). -/
structure BulkPriceUpdateRequest where
  adjustment_type : String
  adjustment_value : ℚ
  applies_to : String
  scope_ids : Option (List Nat)
  product_ids : Option (List Nat)
  reason : String
  preview_only : Bool
  deriving Repr, DecidableEq

/-- JSON values as returned by `response.json()`.  Numeric leaves are
modelled by their exact decimal value (`str` of the parsed number re-parses
to the same `Decimal`). -/
inductive Json where
  | str (s : String)
  | num (q : ℚ)
  | bool (b : Bool)
  | null
  | arr (xs : List Json)
  | obj (fields : List (String × Json))

/-- Whether the first character list is a prefix of the second. -/
def charsPrefix : List Char → List Char → Bool
  | [], _ => true
  | _ :: _, [] => false
  | a :: as, b :: bs => a == b && charsPrefix as bs

/-- Whether the first character list occurs contiguously in the second. -/
def charsSub (needle : List Char) : List Char → Bool
  | [] => needle.isEmpty
  | b :: bs => charsPrefix needle (b :: bs) || charsSub needle bs

/-- Python string containment (`needle in hay` for `str`). -/
def strContains (hay needle : String) : Bool :=
  charsSub needle.toList hay.toList

/-- Whether a JSON value is a string equal to `s` (Python `==` against a
string is `False` for every non-`str` value). -/
def Json.isStrEq : Json → String → Bool
  | .str t, s => t == s
  | _, _ => false

/-- Whether a JSON value is a `dict` (`isinstance(v, dict)`). -/
def Json.isObj : Json → Bool
  | .obj _ => true
  | _ => false

/-- Python `needle in j` for a string needle: key membership on a `dict`,
element equality on a `list`, substring test on a `str`; `TypeError` on
numbers, booleans and `None`. -/
def pyContains (j : Json) (needle : String) : Except String Bool :=
  match j with
  | .obj fs => pure (fs.any (fun kv => kv.1 == needle))
  | .arr xs => pure (xs.any (fun x => x.isStrEq needle))
  | .str s => pure (strContains s needle)
  | _ => throw "TypeError"

/-- Python `j[key]` for a string key: `dict` lookup; `TypeError` on every
other value (string keys are invalid list/str indices). -/
def pyGetItem (j : Json) (key : String) : Except String Json :=
  match j with
  | .obj fs =>
    match fs.find? (fun kv => kv.1 == key) with
    | some kv => pure kv.2
    | none => throw "KeyError"
  | _ => throw "TypeError"

/-- Python `for x in j`: elements of a `list`, keys of a `dict`,
one-character strings of a `str`; `TypeError` otherwise. -/
def pyIter (j : Json) : Except String (List Json) :=
  match j with
  | .arr xs => pure xs
  | .obj fs => pure (fs.map (fun kv => Json.str kv.1))
  | .str s => pure (s.toList.map (fun c => Json.str (String.mk [c])))
  | _ => throw "TypeError"

/-- Digit-string value. -/
def digitsVal? (cs : List Char) : Option ℕ :=
  cs.foldl
    (fun acc c =>
      match acc with
      | some n => if c.isDigit then some (n * 10 + (c.toNat - 48)) else none
      | none => none)
    (some 0)

/-- `Decimal(s)` for a plain decimal literal `[+-]?digits[.digits]?` with at
least one digit (exponent and special forms, which no feed in question uses,
are not modelled and map to a parse failure). -/
def parseDecimalString? (s : String) : Option ℚ :=
  let cs := s.toList
  let signed : ℚ × List Char :=
    match cs with
    | '-' :: rest => (-1, rest)
    | '+' :: rest => (1, rest)
    | _ => (1, cs)
  let sign := signed.1
  let body := signed.2
  let intPart := body.takeWhile (fun c => c.isDigit)
  let rest := body.dropWhile (fun c => c.isDigit)
  match rest with
  | [] =>
    if intPart.isEmpty then none
    else (digitsVal? intPart).map (fun n => sign * (n : ℚ))
  | '.' :: frac =>
    if frac.all (fun c => c.isDigit) && !(intPart.isEmpty && frac.isEmpty) then
      match digitsVal? intPart, digitsVal? frac with
      | some i, some f => some (sign * ((i : ℚ) + (f : ℚ) / (10 ^ frac.length)))
      | _, _ => none
    else none
  | _ => none

/-- `Decimal(str(v))` on a JSON leaf: exact for numbers, parsed for decimal
string literals; everything else (`str(True) = "True"`, `str(None) =
"None"`, rendered lists/dicts) raises `InvalidOperation`. -/
def pyDecimal (j : Json) : Except String ℚ :=
  match j with
  | .num q => pure q
  | .str s =>
    match parseDecimalString? s with
    | some q => pure q
    | none => throw "InvalidOperation"
  | _ => throw "InvalidOperation"

/-- Python `==` on the hashable JSON leaves used as dict keys (numbers and
booleans compare numerically: `True == 1`). -/
def keyEq : Json → Json → Bool
  | .str a, .str b => a == b
  | .num a, .num b => a == b
  | .bool a, .bool b => a == b
  | .num a, .bool b => a == (if b then (1 : ℚ) else 0)
  | .bool a, .num b => (if a then (1 : ℚ) else 0) == b
  | .null, .null => true
  | _, _ => false

/-- `prices[k] = v` on the accumulating dict (overwrite or append). -/
def assocSet (m : List (Json × ℚ)) (k : Json) (v : ℚ) : List (Json × ℚ) :=
  if m.any (fun kv => keyEq kv.1 k) then
    m.map (fun kv => if keyEq kv.1 k then (kv.1, v) else kv)
  else m ++ [(k, v)]

/-- `k in prices` / `prices[k]` on the accumulated dict. -/
def assocGet (m : List (Json × ℚ)) (k : Json) : Option ℚ :=
  (m.find? (fun kv => keyEq kv.1 k)).map (fun kv => kv.2)

/-- One iteration of the Format-1 loop of `_parse_supplier_response`:
`if "sku" in item and "price" in item: prices[item["sku"]] =
Decimal(str(item["price"]))` (right-hand side evaluated first; an
unhashable sku raises). -/
def parseItem (prices : List (Json × ℚ)) (item : Json) :
    Except String (List (Json × ℚ)) := do
  let hasSku ← pyContains item "sku"
  if hasSku then
    let hasPrice ← pyContains item "price"
    if hasPrice then
      let pricev ← pyGetItem item "price"
      let q ← pyDecimal pricev
      let skuv ← pyGetItem item "sku"
      match skuv with
      | .arr _ => throw "TypeError: unhashable"
      | .obj _ => throw "TypeError: unhashable"
      | k => pure (assocSet prices k q)
    else pure prices
  else pure prices

/-- Format 1 of `_parse_supplier_response`: `for item in data["items"]`. -/
def parseItems (data : Json) : Except String (List (Json × ℚ)) := do
  let items ← pyGetItem data "items"
  let seq ← pyIter items
  seq.foldlM parseItem []

/-- Format 2 of `_parse_supplier_response`: a flat `dict` none of whose
values is a `dict`; `Decimal` failures are swallowed per entry
(`try/except: pass`). -/
def parseFlat (fs : List (String × Json)) : List (Json × ℚ) :=
  fs.foldl
    (fun prices kv =>
      match pyDecimal kv.2 with
      | .ok q => assocSet prices (Json.str kv.1) q
      | .error _ => prices)
    []

/-- Format 3 of `_parse_supplier_response`:
`for sku, details in data["products"].items()` with
`if isinstance(details, dict) and "price" in details` (a non-`dict`
`data["products"]` raises `AttributeError`; `Decimal` failures
propagate). -/
def parseProducts (data : Json) : Except String (List (Json × ℚ)) := do
  let prods ← pyGetItem data "products"
  match prods with
  | .obj fs =>
    fs.foldlM
      (fun prices kv => do
        match kv.2 with
        | .obj dfs =>
          if dfs.any (fun e => e.1 == "price") then do
            let pv ← pyGetItem kv.2 "price"
            let q ← pyDecimal pv
            pure (assocSet prices (Json.str kv.1) q)
          else pure prices
        | _ => pure prices)
      []
  | _ => throw "AttributeError"

/-- `_parse_supplier_response(data)`: try Format 1 (`"items" in data`),
else Format 2 (a `dict` with no `dict` values), else Format 3
(`"products" in data`), else return the empty mapping. -/
def parseSupplierResponse (data : Json) : Except String (List (Json × ℚ)) := do
  let hasItems ← pyContains data "items"
  if hasItems then parseItems data
  else
    match data with
    | .obj fs =>
      if !fs.any (fun kv => kv.2.isObj) then pure (parseFlat fs)
      else do
        let hasProducts ← pyContains data "products"
        if hasProducts then parseProducts data else pure []
    | _ => do
      let hasProducts ← pyContains data "products"
      if hasProducts then parseProducts data else pure []

/-- The result dictionary of `sync_supplier_prices` (timestamp omitted). -/
structure SyncResult where
  supplier_id : Nat
  products_checked : Nat
  products_updated : Nat
  errors : List BatchError
  deriving Repr, DecidableEq

/-- The dict key `sync_supplier_prices` looks up for a row
(`ps.supplier_sku`, `None` when the column is null). -/
def skuKey (ps : ProductSupplier) : Json :=
  match ps.supplier_sku with
  | some s => Json.str s
  | none => Json.null

/-- One iteration of the `sync_supplier_prices` loop for a `ProductSupplier`
row: skip unless the row's `supplier_sku` is a key of the parsed mapping;
skip when the fetched cost equals the row's current `cost_price`; otherwise
append a cost `PriceHistory` row (`change_source="supplier_sync"`), persist
the new `cost_price` (the `ps.last_price_update` assignment writes a
non-column attribute, so `last_cost_price` / `last_checked_at` /
`last_price_change_at` stay untouched) and then run `_check_auto_adjust`;
an exception there is caught per row, after those writes.  `syncOneOrm` is
the execution-faithful version: the `PriceHistory` call raises `TypeError`
first, caught by the same per-row handler before any write happens. -/
def syncOne (db : DB) (sid : Nat) (prices : List (Json × ℚ))
    (ps : ProductSupplier) : DB × Option BatchError × Bool :=
  match assocGet prices (skuKey ps) with
  | none => (db, none, false)
  | some new_cost =>
    if new_cost ≠ ps.cost_price then
      let h : HistoryRow :=
        { product_id := ps.product_id, supplier_id := some sid,
          price_type := "cost", old_price := ps.cost_price,
          new_price := new_cost, change_source := "supplier_sync",
          change_reason := "Supplier price update", changed_by := none }
      let db1 := { db with history := db.history ++ [h] }
      let db2 := db1.setPS { ps with cost_price := new_cost }
      match db2.findProduct ps.product_id with
      | none => (db2, some ⟨ps.product_id, "AttributeError"⟩, false)
      | some product =>
        match checkAutoAdjust db2 product new_cost with
        | .ok db3 => (db3, none, true)
        | .error e => (db2, some ⟨ps.product_id, e⟩, false)
    else (db, none, false)

/-- The accumulator step of the `sync_supplier_prices` loop. -/
def syncStep (sid : Nat) (prices : List (Json × ℚ))
    (acc : DB × List BatchError × Nat) (ps : ProductSupplier) :
    DB × List BatchError × Nat :=
  let (db, errs, n) := acc
  let (db', e, u) := syncOne db sid prices ps
  (db', errs ++ e.toList, n + (if u then 1 else 0))

/-- `sync_supplier_prices(supplier_id)` after the HTTP fetch produced the
raw body `data`: parse the feed (parse exceptions propagate), then fold
`syncOne` over the supplier's active `ProductSupplier` rows, collecting
per-product errors (continue-on-error).  `syncSupplierPricesOrm` includes
the fetch step, which always raises before any HTTP request is made. -/
def syncSupplierPrices (db : DB) (sid : Nat) (data : Json) :
    Except String (DB × SyncResult) := do
  let pss := db.productSuppliers.filter
    (fun ps => ps.supplier_id == sid && ps.is_active)
  let prices ← parseSupplierResponse data
  let folded := pss.foldl (syncStep sid prices) (db, [], 0)
  pure (folded.1, ⟨sid, pss.length, folded.2.2, folded.2.1⟩)

/-- The stored retail price of a product, if the product exists. -/
def priceOf (db : DB) (pid : Nat) : Option ℚ :=
  (db.findProduct pid).map (fun p => p.retail_price)

/-- The `rule_type` values admitted by the rule-creation schema
`PriceAdjustmentRuleCreate` (`backend/app/schemas/pricing.py`, pattern
`^(margin_based|competitor_match|time_based|inventory_based)$`). -/
def apiRuleTypes : List String :=
  ["margin_based", "competitor_match", "time_based", "inventory_based"]

/-- The retail `PriceHistory` rows recorded for a product: the audit trail
of its `retail_price` transitions. -/
def retailRowsFor (db : DB) (pid : Nat) : List HistoryRow :=
  db.history.filter (fun h => h.product_id = pid && h.price_type == "retail")

/-- A price-mutating engine operation: a bulk update call or an on-demand
rule application (the two writers of `retail_price` in the service). -/
inductive EngineOp where
  | bulk (ty : String) (v : ℚ) (ids : List Nat) (uid : Option Nat)
  | applyRule (pid rid : Nat) (bc : Option ℚ)
  deriving Repr

/-- Spec-level description of a rule the `_check_auto_adjust` loop `break`s
on: scoped to this very product, or — failing that and carrying no category
scope — scoped to the product's brand. -/
def directMatch (p : Product) (r : Rule) : Bool :=
  (ntruthy r.product_id && r.product_id == some p.id)
  || (!(ntruthy r.product_id && r.product_id == some p.id)
      && !ntruthy r.category_id
      && (ntruthy r.brand_id && r.brand_id == p.brand_id))

/-- Spec-level description of a global rule: all three scope ids falsy. -/
def globalScope (r : Rule) : Bool :=
  !ntruthy r.product_id && !ntruthy r.category_id && !ntruthy r.brand_id

/-! ### The declarative ORM boundary

`backend/app/db/base.py` declares `Base` with `@as_declarative()` and no
custom `__init__`, so every model uses the SQLAlchemy default declarative
constructor: it raises `TypeError` at the first keyword argument that is
not an attribute of the mapped class, and otherwise sets the given
attributes.  Reading an instance attribute the mapped class does not
declare raises `AttributeError`.  The attribute lists below are transcribed
from `backend/app/models/price_history.py` and
`backend/app/models/supplier.py`: columns, relationships and `@property`
members, plus the `created_at` / `updated_at` columns contributed by
`TimestampMixin` where the model mixes it in.

A raised Python exception is modelled by the single string
`"Type: message"`; the quotes `%r` places around the offending keyword in
the SQLAlchemy `TypeError` message are dropped.

The `...Orm` functions re-run the service definitions above against these
declared attribute sets: every attribute access and constructor call the
service performs on a column the model lacks raises exactly where the
interpreter would, and the written continuation after a failing guard is
kept in place as dead code. -/

/-- Attributes of the mapped `PriceHistory` class: its columns
(`id`, `product_id`, `supplier_id`, `cost_price`, `retail_price`,
`competitor_price`, `source`, `notes`, `recorded_at`) and its
relationships (`product`, `supplier`). -/
def priceHistoryAttrs : List String :=
  ["id", "product_id", "supplier_id", "cost_price", "retail_price",
   "competitor_price", "source", "notes", "recorded_at",
   "product", "supplier"]

/-- Attributes of the mapped `PriceAdjustmentRule` class: its columns plus
`created_at` / `updated_at` from `TimestampMixin`.  Note the absence of
`product_id`, `category_id`, `brand_id`, `adjustment_type`,
`adjustment_value`, `min_margin`, `max_margin`. -/
def priceAdjustmentRuleAttrs : List String :=
  ["id", "name", "description", "rule_type", "conditions", "priority",
   "applies_to", "scope_ids", "action_type", "action_value",
   "action_config", "is_active", "created_at", "updated_at"]

/-- Attributes of the mapped `PriceAdjustmentLog` class: columns,
relationships (`product`, `rule`, `approver`) and the two `@property`
members.  Note the absence of `cost_at_adjustment` and
`margin_achieved`. -/
def priceAdjustmentLogAttrs : List String :=
  ["id", "product_id", "rule_id", "old_price", "new_price", "old_cost",
   "new_cost", "reason", "adjustment_details", "status", "approved_by",
   "approved_at", "created_at", "product", "rule", "approver",
   "price_change", "price_change_percent"]

/-- Attributes of the mapped `SupplierAPIConfig` class (columns plus
`TimestampMixin`, plus the `supplier` relationship).  Note the absence of
`api_key` (only `api_key_encrypted` exists), `api_key_header`,
`auth_token`, `request_method`, `price_endpoint`, `timeout_seconds`. -/
def supplierAPIConfigAttrs : List String :=
  ["id", "supplier_id", "api_type", "base_url", "auth_type",
   "api_key_encrypted", "api_secret_encrypted", "additional_config",
   "rate_limit_per_minute", "last_sync_at", "is_active",
   "created_at", "updated_at", "supplier"]

/-- The keyword arguments, in call order, of the `PriceHistory(...)` call
in the `sync_supplier_prices` loop.  First keyword the mapped class lacks:
`price_type`. -/
def syncHistoryKwargs : List String :=
  ["product_id", "supplier_id", "price_type", "old_price", "new_price",
   "change_source", "change_reason"]

/-- The keyword arguments, in call order, of the `PriceHistory(...)` call
in `apply_adjustment_rule`.  First keyword the mapped class lacks:
`price_type`. -/
def applyHistoryKwargs : List String :=
  ["product_id", "price_type", "old_price", "new_price",
   "change_source", "change_reason"]

/-- The keyword arguments, in call order, of the `PriceAdjustmentLog(...)`
call in `apply_adjustment_rule`.  First keyword the mapped class lacks:
`cost_at_adjustment`. -/
def applyLogKwargs : List String :=
  ["product_id", "rule_id", "old_price", "new_price",
   "cost_at_adjustment", "margin_achieved"]

/-- The keyword arguments, in call order, of the `PriceHistory(...)` call
in `bulk_price_update`.  First keyword the mapped class lacks:
`price_type`. -/
def bulkHistoryKwargs : List String :=
  ["product_id", "price_type", "old_price", "new_price", "change_source",
   "change_reason", "changed_by"]

/-- The SQLAlchemy default declarative constructor: scan the keyword
arguments in call order and raise `TypeError` at the first one that is not
an attribute of the mapped class. -/
def pyInit (cls : String) (attrs kwargs : List String) : Except String Unit :=
  match kwargs.find? (fun k => !attrs.contains k) with
  | some k =>
    throw ("TypeError: " ++ k ++ " is an invalid keyword argument for " ++ cls)
  | none => pure ()

/-- Reading `obj.name` on a mapped instance: `AttributeError` when the
mapped class declares no such attribute. -/
def pyGetattrCheck (cls : String) (attrs : List String) (name : String) :
    Except String Unit :=
  if attrs.contains name then pure ()
  else throw ("AttributeError: " ++ cls ++ " object has no attribute " ++ name)

/-- The pricing-relevant part of a `SupplierAPIConfig` row (the columns the
guards of `fetch_supplier_prices` reach before it raises). -/
structure SupplierAPIConfigRow where
  supplier_id : Nat
  is_active : Bool
  deriving Repr, DecidableEq

/-- The pricing-relevant part of a `Supplier` row with its eagerly loaded
one-to-one `api_config` relationship. -/
structure SupplierRow where
  id : Nat
  name : String
  api_config : Option SupplierAPIConfigRow
  deriving Repr, DecidableEq

/-- `fetch_supplier_prices(supplier_id)` against the declared ORM
attributes.  `sup` is the result of the
`Supplier.id == supplier_id, Supplier.is_active == True` query; `data` is
the body the HTTP request would return.  After the `NotFoundError` and
`BusinessLogicError` guards, the header construction reads
`config.api_key`, which `SupplierAPIConfig` does not declare, so the
function raises `AttributeError` before any HTTP request; returning the
body is dead code. -/
def fetchSupplierPricesOrm (sup : Option SupplierRow) (data : Json) :
    Except String Json :=
  match sup with
  | none => throw "NotFound: Supplier or API configuration"
  | some s =>
    match s.api_config with
    | none => throw "NotFound: Supplier or API configuration"
    | some config =>
      if !config.is_active then throw "BusinessLogic: Supplier API is not active"
      else
        match pyGetattrCheck "SupplierAPIConfig" supplierAPIConfigAttrs "api_key" with
        | .error e => throw e
        | .ok _ => pure data

/-- `apply_adjustment_rule` against the declared ORM attributes: after the
lookups and the cost guard, the first statement of the price computation
reads `rule.adjustment_type`, which `PriceAdjustmentRule` does not declare,
so the call raises `AttributeError`; the price computation, the two
constructor calls (whose keywords the mapped classes reject anyway) and the
price write are dead code. -/
def applyAdjustmentRuleOrm (db : DB) (product_id rule_id : Nat)
    (base_cost : Option ℚ) : Except String DB :=
  match db.findProduct product_id with
  | none => throw "NotFound: Product"
  | some product =>
    match db.findRule rule_id with
    | none => throw "NotFound: Price adjustment rule"
    | some rule =>
      let cost := costOf base_cost product
      if cost = 0 then throw "No cost available for price calculation"
      else
        match pyGetattrCheck "PriceAdjustmentRule" priceAdjustmentRuleAttrs
            "adjustment_type" with
        | .error e => throw e
        | .ok _ =>
          match adjustedPrice rule cost with
          | .error e => throw e
          | .ok (new_price, margin) =>
            if new_price ≠ product.retail_price then
              match pyInit "PriceHistory" priceHistoryAttrs applyHistoryKwargs with
              | .error e => throw e
              | .ok _ =>
                match pyInit "PriceAdjustmentLog" priceAdjustmentLogAttrs
                    applyLogKwargs with
                | .error e => throw e
                | .ok _ =>
                  let h : HistoryRow :=
                    { product_id := product_id, supplier_id := none,
                      price_type := "retail",
                      old_price := product.retail_price,
                      new_price := new_price,
                      change_source := "rule_application",
                      change_reason := "Rule: " ++ rule.name,
                      changed_by := none }
                  let l : LogRow :=
                    { product_id := product_id, rule_id := rule_id,
                      old_price := product.retail_price,
                      new_price := new_price, cost_at_adjustment := cost,
                      margin_achieved := margin, status := "applied" }
                  let db1 :=
                    { db with
                      history := db.history ++ [h], logs := db.logs ++ [l] }
                  pure (db1.setProduct { product with retail_price := new_price })
            else pure db

/-- `_check_auto_adjust` against the declared ORM attributes: the candidate
query succeeds (it touches only declared columns), but the first loop
iteration reads `rule.product_id`, which `PriceAdjustmentRule` does not
declare.  With no candidate the loop body never runs and nothing is
selected; with at least one candidate the function raises `AttributeError`;
the written resolution and application are dead code. -/
def checkAutoAdjustOrm (db : DB) (p : Product) (new_cost : ℚ) :
    Except String DB :=
  match autoAdjustCandidates db.rules with
  | [] => pure db
  | _ :: _ =>
    match pyGetattrCheck "PriceAdjustmentRule" priceAdjustmentRuleAttrs
        "product_id" with
    | .error e => throw e
    | .ok _ =>
      match selectAutoRule p db.rules with
      | some rule => applyAdjustmentRuleOrm db p.id rule.id (some new_cost)
      | none => pure db

/-- One iteration of the `sync_supplier_prices` loop against the declared
ORM attributes: skip cleanly when the sku is absent from the mapping or the
fetched cost equals the stored `cost_price`; otherwise the
`PriceHistory(...)` call raises `TypeError`, the per-row handler records it,
and neither the history append, nor the `cost_price` update, nor
`_check_auto_adjust` ever run — the row is left untouched.  The written
update path is kept as dead code. -/
def syncOneOrm (db : DB) (sid : Nat) (prices : List (Json × ℚ))
    (ps : ProductSupplier) : DB × Option BatchError × Bool :=
  match assocGet prices (skuKey ps) with
  | none => (db, none, false)
  | some new_cost =>
    if new_cost ≠ ps.cost_price then
      match pyInit "PriceHistory" priceHistoryAttrs syncHistoryKwargs with
      | .error e => (db, some ⟨ps.product_id, e⟩, false)
      | .ok _ =>
        let h : HistoryRow :=
          { product_id := ps.product_id, supplier_id := some sid,
            price_type := "cost", old_price := ps.cost_price,
            new_price := new_cost, change_source := "supplier_sync",
            change_reason := "Supplier price update", changed_by := none }
        let db1 := { db with history := db.history ++ [h] }
        let db2 := db1.setPS { ps with cost_price := new_cost }
        match db2.findProduct ps.product_id with
        | none => (db2, some ⟨ps.product_id, "AttributeError"⟩, false)
        | some product =>
          match checkAutoAdjustOrm db2 product new_cost with
          | .ok db3 => (db3, none, true)
          | .error e => (db2, some ⟨ps.product_id, e⟩, false)
    else (db, none, false)

/-- The accumulator step of the ORM-faithful sync loop. -/
def syncStepOrm (sid : Nat) (prices : List (Json × ℚ))
    (acc : DB × List BatchError × Nat) (ps : ProductSupplier) :
    DB × List BatchError × Nat :=
  let (db, errs, n) := acc
  let (db1, e, u) := syncOneOrm db sid prices ps
  (db1, errs ++ e.toList, n + (if u then 1 else 0))

/-- `sync_supplier_prices(supplier_id)` against the declared ORM
attributes, including the fetch step: `fetch_supplier_prices` always raises
before any HTTP request, so the parse and the loop are dead code and the
whole sync raises for every input. -/
def syncSupplierPricesOrm (db : DB) (sid : Nat) (sup : Option SupplierRow)
    (data : Json) : Except String (DB × SyncResult) :=
  match fetchSupplierPricesOrm sup data with
  | .error e => throw e
  | .ok body =>
    match parseSupplierResponse body with
    | .error e => throw e
    | .ok prices =>
      let pss := db.productSuppliers.filter
        (fun ps => ps.supplier_id == sid && ps.is_active)
      let folded := pss.foldl (syncStepOrm sid prices) (db, [], 0)
      pure (folded.1, ⟨sid, pss.length, folded.2.2, folded.2.1⟩)

/-- One iteration of the `bulk_price_update` loop against the declared ORM
attributes: lookup failure and an unknown adjustment type append their
error and continue; when the quantized candidate equals the stored price
the row is skipped cleanly; otherwise the `PriceHistory(...)` call raises
`TypeError`, the per-product handler records `str(e)`, and the price write
below it never runs.  The written update path is kept as dead code (the
rendered adjustment value is elided from the reason string). -/
def bulkOneOrm (db : DB) (uid : Option Nat) (ty : String) (v : ℚ)
    (pid : Nat) : DB × Option BatchError × Bool :=
  match db.findProduct pid with
  | none => (db, some ⟨pid, "Not found"⟩, false)
  | some product =>
    match bulkCandidate ty v product.retail_price with
    | none => (db, some ⟨pid, "Invalid adjustment type"⟩, false)
    | some raw =>
      let new_price := q2 raw
      if new_price ≠ product.retail_price then
        match pyInit "PriceHistory" priceHistoryAttrs bulkHistoryKwargs with
        | .error e => (db, some ⟨pid, e⟩, false)
        | .ok _ =>
          let h : HistoryRow :=
            { product_id := pid, supplier_id := none, price_type := "retail",
              old_price := product.retail_price, new_price := new_price,
              change_source := "bulk_update",
              change_reason := "Bulk update: " ++ ty, changed_by := uid }
          let db1 := { db with history := db.history ++ [h] }
          (db1.setProduct { product with retail_price := new_price }, none, true)
      else (db, none, false)

/-- The accumulator step of the ORM-faithful bulk loop. -/
def bulkStepOrm (uid : Option Nat) (ty : String) (v : ℚ)
    (acc : DB × List BatchError × Nat) (pid : Nat) :
    DB × List BatchError × Nat :=
  let (db, errs, n) := acc
  let (db1, e, u) := bulkOneOrm db uid ty v pid
  (db1, errs ++ e.toList, n + (if u then 1 else 0))

/-- `bulk_price_update(product_ids, adjustment_type, adjustment_value,
user_id)` against the declared ORM attributes: fold the per-product step,
returning the final state and the result counts with the collected
errors. -/
def bulkPriceUpdateOrm (db : DB) (ids : List Nat) (ty : String) (v : ℚ)
    (uid : Option Nat) : DB × BulkResult :=
  let folded := ids.foldl (bulkStepOrm uid ty v) (db, [], 0)
  (folded.1, ⟨ids.length, folded.2.2, folded.2.1⟩)

/-- The `POST /pricing/bulk-update` endpoint body: it forwards
`product_ids`, `adjustment_type`, `adjustment_value` and the user id to
`bulk_price_update` and never reads `preview_only`.  A `None`
`product_ids` makes the service iterate over `None`. -/
def bulkUpdateEndpointOrm (db : DB) (req : BulkPriceUpdateRequest)
    (uid : Option Nat) : Except String (DB × BulkResult) :=
  match req.product_ids with
  | none => throw "TypeError: NoneType object is not iterable"
  | some ids =>
    pure (bulkPriceUpdateOrm db ids req.adjustment_type req.adjustment_value uid)

/-- A price-mutating engine call against the declared ORM attributes. -/
def runOpOrm (db : DB) (op : EngineOp) : DB :=
  match op with
  | EngineOp.bulk ty v ids uid => (bulkPriceUpdateOrm db ids ty v uid).1
  | EngineOp.applyRule pid rid bc =>
    match applyAdjustmentRuleOrm db pid rid bc with
    | .ok db1 => db1
    | .error _ => db

/-- A sequence of engine calls against the declared ORM attributes (each
call is its own transaction; a raised exception rolls its state back,
modelled by keeping the previous state). -/
def runOpsOrm (db : DB) : List EngineOp → DB
  | [] => db
  | op :: ops => runOpsOrm (runOpOrm db op) ops

/-! ### Concrete fixtures used by the counterexamples and witnesses -/

/-- A product with cost 100 and the default per-product margin bounds
`[15, 40]` from `backend/app/models/product.py`. -/
def prodCost100 : Product :=
  { id := 1, brand_id := none, base_cost := 100, retail_price := 0,
    min_margin_percent := 15, max_margin_percent := 40,
    price_rounding := "nearest_99" }

/-- An active `cost_plus` rule: 200% percentage markup, no rule-level margin
bounds. -/
def ruleMarkup200 : Rule :=
  { id := 7, name := "markup200", rule_type := "cost_plus",
    product_id := none, category_id := none, brand_id := none,
    adjustment_type := "percentage", adjustment_value := 200,
    min_margin := none, max_margin := none, priority := 0, is_active := true }

/-- State holding `prodCost100` and `ruleMarkup200`. -/
def dbMarkup200 : DB :=
  { products := [prodCost100], rules := [ruleMarkup200],
    productSuppliers := [], history := [], logs := [] }

/-- The product of the worked spec example: cost 50, margin bounds
`[15, 40]`, rounding policy `nearest_99`. -/
def prodCost50 : Product :=
  { id := 1, brand_id := none, base_cost := 50, retail_price := 0,
    min_margin_percent := 15, max_margin_percent := 40,
    price_rounding := "nearest_99" }

/-- The rule of the worked spec example: percentage markup 30% with rule
margin bounds `[15, 40]`. -/
def ruleMarkup30 : Rule :=
  { id := 7, name := "markup30", rule_type := "cost_plus",
    product_id := none, category_id := none, brand_id := none,
    adjustment_type := "percentage", adjustment_value := 30,
    min_margin := some 15, max_margin := some 40, priority := 0,
    is_active := true }

/-- State holding `prodCost50` and `ruleMarkup30`. -/
def dbMarkup30 : DB :=
  { products := [prodCost50], rules := [ruleMarkup30],
    productSuppliers := [], history := [], logs := [] }

/-- A product in brand 2. -/
def prodBrand2 : Product :=
  { id := 1, brand_id := some 2, base_cost := 10, retail_price := 20,
    min_margin_percent := 15, max_margin_percent := 40,
    price_rounding := "nearest_99" }

/-- An active `cost_plus` rule scoped explicitly to product 1, priority 5. -/
def ruleProductScoped : Rule :=
  { id := 1, name := "product-rule", rule_type := "cost_plus",
    product_id := some 1, category_id := none, brand_id := none,
    adjustment_type := "percentage", adjustment_value := 50,
    min_margin := none, max_margin := none, priority := 5, is_active := true }

/-- An active global `cost_plus` rule with priority 100 (all three scope
ids empty). -/
def ruleGlobal100 : Rule :=
  { id := 2, name := "global-rule", rule_type := "cost_plus",
    product_id := none, category_id := none, brand_id := none,
    adjustment_type := "percentage", adjustment_value := 20,
    min_margin := none, max_margin := none, priority := 100,
    is_active := true }

/-- State holding `prodBrand2` with the product-scoped rule (priority 5)
and the global rule (priority 100). -/
def dbScopedRules : DB :=
  { products := [prodBrand2], rules := [ruleProductScoped, ruleGlobal100],
    productSuppliers := [], history := [], logs := [] }

/-- A product with stored retail price 10. -/
def prodPrice10 : Product :=
  { id := 1, brand_id := none, base_cost := 5, retail_price := 10,
    min_margin_percent := 15, max_margin_percent := 40,
    price_rounding := "nearest_99" }

/-- State holding only `prodPrice10`. -/
def dbPrice10 : DB :=
  { products := [prodPrice10], rules := [], productSuppliers := [],
    history := [], logs := [] }

/-- A bulk request with `preview_only = true`: +10% on product 1. -/
def previewReq : BulkPriceUpdateRequest :=
  { adjustment_type := "percentage", adjustment_value := 10,
    applies_to := "all", scope_ids := none, product_ids := some [1],
    reason := "preview", preview_only := true }

/-- A supplier link for product 1 / supplier 3: current cost 10, previous
(`last_cost_price`) 5, `supplier_sku` "S". -/
def psS : ProductSupplier :=
  { id := 1, product_id := 1, supplier_id := 3, supplier_sku := some "S",
    cost_price := 10, last_cost_price := some 5, last_checked_at := some 0,
    last_price_change_at := none, is_active := true }

/-- State holding `prodPrice10` and the supplier link `psS`, no rules. -/
def dbSync : DB :=
  { products := [prodPrice10], rules := [], productSuppliers := [psS],
    history := [], logs := [] }

/-- An active `SupplierAPIConfig` row for supplier 3. -/
def cfgS3 : SupplierAPIConfigRow :=
  { supplier_id := 3, is_active := true }

/-- An active supplier (id 3) holding the active API configuration
`cfgS3`. -/
def supS3 : SupplierRow :=
  { id := 3, name := "Supplier3", api_config := some cfgS3 }

/-- A feed body in the flat-map shape reporting cost 12 for sku "S". -/
def feedS12 : Json := Json.obj [("S", Json.num 12)]

/-- A feed body that is a bare list of `{sku, price}` objects. -/
def feedBareList : Json :=
  Json.arr [Json.obj [("sku", Json.str "A"), ("price", Json.num (3/2))]]

/-- An active rule of an API-creatable `rule_type` (`margin_based`). -/
def ruleMarginBased : Rule :=
  { id := 9, name := "api-rule", rule_type := "margin_based",
    product_id := none, category_id := none, brand_id := none,
    adjustment_type := "percentage", adjustment_value := 30,
    min_margin := none, max_margin := none, priority := 50, is_active := true }

/-- State with `prodPrice10`, the supplier link `psS` and only the
API-creatable rule `ruleMarginBased`. -/
def dbApiRule : DB :=
  { products := [prodPrice10], rules := [ruleMarginBased],
    productSuppliers := [psS], history := [], logs := [] }

/-- Claim C5, counterexample: a feed that is a bare list of `{sku, price}`
objects — a shape the claim lists as supported — parses to the empty
mapping instead of `{"A": 1.5}` (only the `{"items": [...]}` keyed variant
is handled). -/
theorem bare_list_shape_unsupported_cex :
    parseSupplierResponse feedBareList = .ok []
    ∧ ([] : List (Json × ℚ)) ≠ [(Json.str "A", 3/2)] :=
  ⟨rfl, by simp⟩

/-- The `_check_auto_adjust` scan, characterized: with accumulator `acc`,
the loop returns the first rule it would `break` on (`directMatch`), else
the last-scanned global rule, else `acc`. -/
theorem resolveLoop_characterization (p : Product) :
    ∀ (rs : List Rule) (acc : Option Rule),
      resolveLoop p acc rs =
        match rs.find? (directMatch p) with
        | some r => some r
        | none =>
          match (rs.filter globalScope).getLast? with
          | some g => some g
          | none => acc := by
  intro rs
  induction rs with
  | nil => intro acc; simp [resolveLoop]
  | cons r rs ih =>
    intro acc
    by_cases h1 : (ntruthy r.product_id && r.product_id == some p.id) = true
    · have hdm : directMatch p r = true := by simp [directMatch, h1]
      simp [resolveLoop, h1, List.find?_cons_of_pos _ hdm]
    · rw [Bool.not_eq_true] at h1
      by_cases h2 : ntruthy r.category_id = true
      · have hdm : directMatch p r = false := by simp [directMatch, h1, h2]
        have hg : globalScope r = false := by simp [globalScope, h2]
        simp only [resolveLoop]
        rw [if_neg (by simp [h1]), if_pos h2]
        rw [List.find?_cons_of_neg _ (by simp [hdm]), List.filter_cons, hg]
        simp [ih]
      · rw [Bool.not_eq_true] at h2
        by_cases h3 : (ntruthy r.brand_id && r.brand_id == p.brand_id) = true
        · have hdm : directMatch p r = true := by
            simp [directMatch, h1, h2, h3]
          simp only [resolveLoop]
          rw [if_neg (by simp [h1]), if_neg (by simp [h2]), if_pos h3,
            List.find?_cons_of_pos _ hdm]
        · rw [Bool.not_eq_true] at h3
          by_cases h4 : (!ntruthy r.product_id && !ntruthy r.category_id
              && !ntruthy r.brand_id) = true
          · have hdm : directMatch p r = false := by
              simp [directMatch, h1, h2, h3]
            have hg : globalScope r = true := by
              simp only [globalScope]
              simpa using h4
            simp only [resolveLoop]
            rw [if_neg (by simp [h1]), if_neg (by simp [h2]),
              if_neg (by simp [h3]), if_pos h4]
            rw [List.find?_cons_of_neg _ (by simp [hdm]), List.filter_cons, hg]
            rw [if_pos rfl, List.getLast?_cons, ih]
            cases hfind : rs.find? (directMatch p) with
            | some x => simp
            | none =>
              cases hlast : (rs.filter globalScope).getLast? with
              | some g => simp [hlast]
              | none => simp [hlast]
          · rw [Bool.not_eq_true] at h4
            have hdm : directMatch p r = false := by
              simp [directMatch, h1, h2, h3]
            have hg : globalScope r = false := by
              simp only [globalScope]
              simpa using h4
            simp only [resolveLoop]
            rw [if_neg (by simp [h1]), if_neg (by simp [h2]),
              if_neg (by simp [h3]), if_neg (by simp [h4])]
            rw [List.find?_cons_of_neg _ (by simp [hdm]), List.filter_cons, hg]
            simp [ih]

/-- Every rule the `_check_auto_adjust` query can return is active and of
`rule_type` `"cost_plus"`. -/
theorem mem_autoAdjustCandidates {rules : List Rule} {r : Rule}
    (hr : r ∈ autoAdjustCandidates rules) :
    r.is_active = true ∧ r.rule_type = "cost_plus" := by
  rw [autoAdjustCandidates] at hr
  haveI : IsTotal Rule (fun a b => b.priority ≤ a.priority) :=
    ⟨fun a b => le_total b.priority a.priority⟩
  rw [(List.perm_insertionSort _ _).mem_iff, List.mem_filter] at hr
  have := hr.2
  simp at this
  exact this

theorem parseItem_pair (prices : List (Json × ℚ)) (s : String) (q : ℚ) :
    parseItem prices (Json.obj [("sku", Json.str s), ("price", Json.num q)])
      = .ok (assocSet prices (Json.str s) q) := rfl

theorem parseItems_pairs (items : List (String × ℚ)) :
    ∀ prices : List (Json × ℚ),
      (items.map (fun kv =>
        Json.obj [("sku", Json.str kv.1), ("price", Json.num kv.2)])).foldlM
          parseItem prices
        = .ok (items.foldl (fun m kv => assocSet m (Json.str kv.1) kv.2) prices) := by
  induction items with
  | nil => intro prices; rfl
  | cons kv rest ih =>
    intro prices
    simp only [List.map_cons, List.foldlM, parseItem_pair, List.foldl_cons]
    exact ih _

theorem parseFlat_nums (fs : List (String × ℚ)) :
    parseFlat (fs.map (fun kv => (kv.1, Json.num kv.2)))
      = fs.foldl (fun m kv => assocSet m (Json.str kv.1) kv.2) [] := by
  rw [parseFlat, List.foldl_map]
  rfl

theorem parseProducts_pairs (fs : List (String × ℚ)) :
    ∀ prices : List (Json × ℚ),
      (fs.map (fun kv => (kv.1, Json.obj [("price", Json.num kv.2)]))).foldlM
          (fun prices kv => do
            match kv.2 with
            | .obj dfs =>
              if dfs.any (fun e => e.1 == "price") then do
                let pv ← pyGetItem kv.2 "price"
                let q ← pyDecimal pv
                pure (assocSet prices (Json.str kv.1) q)
              else pure prices
            | _ => pure prices)
          prices
        = .ok (fs.foldl (fun m kv => assocSet m (Json.str kv.1) kv.2) prices) := by
  induction fs with
  | nil => intro prices; rfl
  | cons kv rest ih =>
    intro prices
    simp only [List.map_cons, List.foldlM, List.foldl_cons]
    exact ih _

theorem any_key_map_num (fs : List (String × ℚ)) (k : String) :
    ((fs.map (fun kv => (kv.1, Json.num kv.2))).any (fun kv => kv.1 == k))
      = fs.any (fun kv => kv.1 == k) := by
  induction fs with
  | nil => rfl
  | cons a t ih => simp only [List.map_cons, List.any_cons, ih]

theorem any_isObj_map_num (fs : List (String × ℚ)) :
    ((fs.map (fun kv => (kv.1, Json.num kv.2))).any (fun kv => kv.2.isObj))
      = false := by
  induction fs with
  | nil => rfl
  | cons a t ih =>
    simp only [List.map_cons, List.any_cons, ih, Bool.or_false]
    rfl

/-- Claim C5, amended: the parser's three supported shapes are the *keyed*
list `{"items": [{sku, price}, ...]}`, a flat map none of whose values is a
dict, and the nested `{"products": {sku: {price}}}` map; each yields the
corresponding sku-to-cost mapping.  A dict of any other shape yields the
empty mapping silently — no parse error is reported (and a bare list, the
shape the claim names, is not among the supported ones). -/
theorem feed_parser_shapes :
    (∀ items : List (String × ℚ),
      parseSupplierResponse (Json.obj [("items", Json.arr (items.map (fun kv =>
          Json.obj [("sku", Json.str kv.1), ("price", Json.num kv.2)])))])
        = .ok (items.foldl (fun m kv => assocSet m (Json.str kv.1) kv.2) []))
    ∧ (∀ fs : List (String × ℚ),
      fs.any (fun kv => kv.1 == "items") = false →
      parseSupplierResponse (Json.obj (fs.map (fun kv => (kv.1, Json.num kv.2))))
        = .ok (fs.foldl (fun m kv => assocSet m (Json.str kv.1) kv.2) []))
    ∧ (∀ fs : List (String × ℚ),
      parseSupplierResponse (Json.obj [("products", Json.obj (fs.map (fun kv =>
          (kv.1, Json.obj [("price", Json.num kv.2)]))))])
        = .ok (fs.foldl (fun m kv => assocSet m (Json.str kv.1) kv.2) []))
    ∧ (∀ fields : List (String × Json),
      fields.any (fun kv => kv.1 == "items") = false →
      fields.any (fun kv => kv.2.isObj) = true →
      fields.any (fun kv => kv.1 == "products") = false →
      parseSupplierResponse (Json.obj fields) = .ok []) := by
  refine ⟨?_, ?_, ?_, ?_⟩
  · intro items
    simp only [parseSupplierResponse, pyContains, parseItems, pyGetItem,
      List.find?, Except.bind, bind, pure, Except.pure]
    simpa using parseItems_pairs items []
  · intro fs h
    have hitems : ((fs.map (fun kv => (kv.1, Json.num kv.2))).any
        (fun kv => kv.1 == "items")) = false := by
      rw [any_key_map_num]
      exact h
    have hobj : (fs.map (fun kv => (kv.1, Json.num kv.2))).any
        (fun kv => kv.2.isObj) = false := any_isObj_map_num fs
    simp only [parseSupplierResponse, pyContains, Except.bind, bind, pure,
      Except.pure, hitems, hobj]
    simp [parseFlat_nums fs]
  · intro fs
    simp only [parseSupplierResponse, pyContains, parseProducts, pyGetItem,
      List.find?, Except.bind, bind, pure, Except.pure]
    simpa using parseProducts_pairs fs []
  · intro fields h1 h2 h3
    simp only [parseSupplierResponse, pyContains, Except.bind, bind, pure,
      Except.pure, h1, h2, h3]
    simp

/-- Witness for `feed_parser_shapes`: the flat-map clause at the one-entry
feed `{"S": 10}`. -/
theorem feed_parser_shapes_witness :
    ((([("S", (10 : ℚ))] : List (String × ℚ)).any
        (fun kv => kv.1 == "items")) = false)
    ∧ parseSupplierResponse
        (Json.obj (([("S", (10 : ℚ))] : List (String × ℚ)).map
          (fun kv => (kv.1, Json.num kv.2))))
        = .ok (([("S", (10 : ℚ))] : List (String × ℚ)).foldl
            (fun m kv => assocSet m (Json.str kv.1) kv.2) []) :=
  ⟨rfl, feed_parser_shapes.2.1 [("S", 10)] rfl⟩

theorem syncOne_preserves (db : DB) (sid : Nat) (prices : List (Json × ℚ))
    (ps : ProductSupplier)
    (hall : ∀ r ∈ db.rules, r.rule_type ≠ "cost_plus") :
    (syncOne db sid prices ps).1.products = db.products
    ∧ (syncOne db sid prices ps).1.rules = db.rules := by
  unfold syncOne
  cases hlook : assocGet prices (skuKey ps) with
  | none => exact ⟨rfl, rfl⟩
  | some c =>
    dsimp only
    by_cases hne : c ≠ ps.cost_price
    · rw [if_pos hne]
      set db2 : DB := DB.setPS { db with
        history := db.history ++
          [{ product_id := ps.product_id, supplier_id := some sid,
             price_type := "cost", old_price := ps.cost_price, new_price := c,
             change_source := "supplier_sync",
             change_reason := "Supplier price update", changed_by := none }] }
        { ps with cost_price := c } with hdb2
      cases hfp : db2.findProduct ps.product_id with
      | none => exact ⟨rfl, rfl⟩
      | some product =>
        dsimp only
        have hrules2 : db2.rules = db.rules := rfl
        have hfilter : db2.rules.filter
            (fun r => r.is_active && r.rule_type == "cost_plus") = [] := by
          rw [hrules2]
          rw [List.filter_eq_nil_iff]
          intro r hr
          simp only [Bool.and_eq_true, beq_iff_eq, not_and]
          intro _
          exact hall r hr
        have hsel : selectAutoRule product db2.rules = none := by
          rw [selectAutoRule, autoAdjustCandidates, hfilter]
          rfl
        have hchk : checkAutoAdjust db2 product c = .ok db2 := by
          unfold checkAutoAdjust
          rw [hsel]
          rfl
        rw [hchk]
        exact ⟨rfl, rfl⟩
    · rw [if_neg hne]
      exact ⟨rfl, rfl⟩

theorem syncFold_preserves (sid : Nat) (prices : List (Json × ℚ)) :
    ∀ (l : List ProductSupplier) (db : DB) (errs : List BatchError) (n : Nat),
      (∀ r ∈ db.rules, r.rule_type ≠ "cost_plus") →
      (l.foldl (syncStep sid prices) (db, errs, n)).1.products = db.products
      ∧ (l.foldl (syncStep sid prices) (db, errs, n)).1.rules = db.rules := by
  intro l
  induction l with
  | nil => intro db errs n _; exact ⟨rfl, rfl⟩
  | cons ps rest ih =>
    intro db errs n hall
    rw [List.foldl_cons]
    rcases hso : syncOne db sid prices ps with ⟨db₁, e, u⟩
    have hstep : syncStep sid prices (db, errs, n) ps
        = (db₁, errs ++ e.toList, n + (if u then 1 else 0)) := by
      simp [syncStep, hso]
    rw [hstep]
    have hpres := syncOne_preserves db sid prices ps hall
    rw [hso] at hpres
    have hall₁ : ∀ r ∈ db₁.rules, r.rule_type ≠ "cost_plus" := by
      rw [hpres.2]
      exact hall
    have := ih db₁ (errs ++ e.toList) (n + (if u then 1 else 0)) hall₁
    exact ⟨this.1.trans hpres.1, this.2.trans hpres.2⟩

/-- Claim C10: every `rule_type` admitted by the public rule-creation
schema differs from `"cost_plus"`; since `_check_auto_adjust` only
considers active `"cost_plus"` rules, it never selects an API-creatable
rule, and a supplier cost sync against a store holding only such rules
leaves every product record (hence every `retail_price`) unchanged. -/
theorem api_rule_types_never_auto_applied :
    (∀ s ∈ apiRuleTypes, s ≠ "cost_plus")
    ∧ (∀ (rules : List Rule) (p : Product) (r : Rule),
        selectAutoRule p rules = some r → r.rule_type ∉ apiRuleTypes)
    ∧ (∀ (db : DB) (p : Product),
        (∀ r ∈ db.rules, r.rule_type ∈ apiRuleTypes) →
        selectAutoRule p db.rules = none)
    ∧ (∀ (db : DB) (sid : Nat) (data : Json) (out : DB × SyncResult),
        (∀ r ∈ db.rules, r.rule_type ∈ apiRuleTypes) →
        syncSupplierPrices db sid data = .ok out →
        out.1.products = db.products) := by
  have hapi : ∀ s ∈ apiRuleTypes, s ≠ "cost_plus" := by decide
  have hne : ∀ (db : DB), (∀ r ∈ db.rules, r.rule_type ∈ apiRuleTypes) →
      ∀ r ∈ db.rules, r.rule_type ≠ "cost_plus" := by
    intro db hall r hr
    exact hapi _ (hall r hr)
  refine ⟨hapi, ?_, ?_, ?_⟩
  · intro rules p r hsel
    have hmem : r ∈ autoAdjustCandidates rules := by
      rw [selectAutoRule, resolveLoop_characterization] at hsel
      cases hfind : (autoAdjustCandidates rules).find? (directMatch p) with
      | some r' =>
        rw [hfind] at hsel
        simp only [Option.some.injEq] at hsel
        rw [← hsel]
        exact List.mem_of_find?_eq_some hfind
      | none =>
        rw [hfind] at hsel
        cases hlast :
            ((autoAdjustCandidates rules).filter globalScope).getLast? with
        | some g =>
          rw [hlast] at hsel
          simp only [Option.some.injEq] at hsel
          rw [← hsel]
          have hgmem : g ∈ (autoAdjustCandidates rules).filter globalScope := by
            obtain ⟨h0, heq⟩ := List.mem_getLast?_eq_getLast
              (show g ∈ ((autoAdjustCandidates rules).filter
                globalScope).getLast? by rw [hlast]; rfl)
            rw [heq]
            exact List.getLast_mem h0
          exact List.mem_of_mem_filter hgmem
        | none =>
          rw [hlast] at hsel
          cases hsel
    have hct := (mem_autoAdjustCandidates hmem).2
    rw [hct]
    decide
  · intro db p hall
    have hfilter : db.rules.filter
        (fun r => r.is_active && r.rule_type == "cost_plus") = [] := by
      rw [List.filter_eq_nil_iff]
      intro r hr
      simp only [Bool.and_eq_true, beq_iff_eq, not_and]
      intro _
      exact hne db hall r hr
    rw [selectAutoRule, autoAdjustCandidates, hfilter]
    rfl
  · intro db sid data out hall hsync
    unfold syncSupplierPrices at hsync
    cases hparse : parseSupplierResponse data with
    | error e =>
      rw [hparse] at hsync
      exact absurd hsync (by simp [Except.bind, bind])
    | ok prices =>
      rw [hparse] at hsync
      simp only [Except.bind, bind, pure, Except.pure, Except.ok.injEq] at hsync
      subst hsync
      exact (syncFold_preserves sid prices _ db [] 0 (hne db hall)).1

/-- Witness for `api_rule_types_never_auto_applied`: a sync over a store
whose only rule is `margin_based` leaves the product table unchanged. -/
theorem api_rule_types_never_auto_applied_witness :
    ∃ out, syncSupplierPrices dbApiRule 3 feedS12 = .ok out
      ∧ out.1.products = dbApiRule.products :=
  ⟨_, rfl, api_rule_types_never_auto_applied.2.2.2 dbApiRule 3 feedS12 _
    (by decide) rfl⟩


/-- Closed evaluation: the +10% bulk candidate of a product at 10.00. -/
theorem q2_eleven : q2 (10 + 10 * ((10 : ℚ) / 100)) = 11 := by
  have h : (10 : ℚ) + 10 * (10 / 100) = 11 := by norm_num
  rw [h]
  unfold q2
  rw [if_pos (by norm_num : (0 : ℚ) ≤ 11)]
  rw [show (11 : ℚ) * 100 + 1/2 = 2201/2 by norm_num]
  rw [show ⌊(2201/2 : ℚ)⌋ = 1100 from by
    rw [Int.floor_eq_iff]; norm_num]
  norm_num

/-- Closed evaluation: quantizing 10.01 is the identity. -/
theorem q2_ten_oh_one : q2 ((10 : ℚ) + 1/100) = 1001/100 := by
  unfold q2
  rw [if_pos (by norm_num : (0 : ℚ) ≤ 10 + 1/100)]
  rw [show ((10 : ℚ) + 1/100) * 100 + 1/2 = 2003/2 by norm_num]
  rw [show ⌊(2003/2 : ℚ)⌋ = 1001 from by
    rw [Int.floor_eq_iff]; norm_num]
  norm_num

/-- Every call of the ORM-faithful `apply_adjustment_rule` raises: the four
guards that can fire first all raise, and past them the
`rule.adjustment_type` read raises. -/
theorem applyAdjustmentRuleOrm_error (db : DB) (pid rid : Nat)
    (bc : Option ℚ) : ∃ e, applyAdjustmentRuleOrm db pid rid bc = .error e := by
  unfold applyAdjustmentRuleOrm
  cases db.findProduct pid with
  | none => exact ⟨_, rfl⟩
  | some p =>
    dsimp only
    cases db.findRule rid with
    | none => exact ⟨_, rfl⟩
    | some r =>
      dsimp only
      by_cases hc : costOf bc p = 0
      · rw [if_pos hc]
        exact ⟨_, rfl⟩
      · rw [if_neg hc]
        exact ⟨_, rfl⟩

/-- Every call of the ORM-faithful `fetch_supplier_prices` raises: missing
supplier or configuration, inactive configuration, or — past all guards —
the `config.api_key` read. -/
theorem fetchSupplierPricesOrm_error (sup : Option SupplierRow)
    (data : Json) : ∃ e, fetchSupplierPricesOrm sup data = .error e := by
  unfold fetchSupplierPricesOrm
  cases sup with
  | none => exact ⟨_, rfl⟩
  | some s =>
    dsimp only
    cases s.api_config with
    | none => exact ⟨_, rfl⟩
    | some cfg =>
      dsimp only
      by_cases h : (!cfg.is_active) = true
      · rw [if_pos h]
        exact ⟨_, rfl⟩
      · rw [if_neg h]
        exact ⟨_, rfl⟩

/-- One ORM-faithful bulk iteration never changes the state and never
counts an update: every path either skips or records an error, and the
write path is unreachable behind the `PriceHistory` constructor. -/
theorem bulkOneOrm_fst (db : DB) (uid : Option Nat) (ty : String) (v : ℚ)
    (pid : Nat) : (bulkOneOrm db uid ty v pid).1 = db
    ∧ (bulkOneOrm db uid ty v pid).2.2 = false := by
  unfold bulkOneOrm
  cases db.findProduct pid with
  | none => exact ⟨rfl, rfl⟩
  | some p =>
    dsimp only
    cases bulkCandidate ty v p.retail_price with
    | none => exact ⟨rfl, rfl⟩
    | some raw =>
      dsimp only
      by_cases h : q2 raw ≠ p.retail_price
      · rw [if_pos h]
        exact ⟨rfl, rfl⟩
      · rw [if_neg h]
        exact ⟨rfl, rfl⟩

/-- Folding the ORM-faithful bulk step over any id list leaves the state
component of the accumulator unchanged. -/
theorem bulkFoldOrm_fst (uid : Option Nat) (ty : String) (v : ℚ) :
    ∀ (ids : List Nat) (db : DB) (errs : List BatchError) (n : Nat),
      (ids.foldl (bulkStepOrm uid ty v) (db, errs, n)).1 = db := by
  intro ids
  induction ids with
  | nil => intro db errs n; rfl
  | cons i is ih =>
    intro db errs n
    rw [List.foldl_cons]
    have h := bulkOneOrm_fst db uid ty v i
    rcases hb : bulkOneOrm db uid ty v i with ⟨db1, e, u⟩
    rw [hb] at h
    simp only at h
    have hstep : bulkStepOrm uid ty v (db, errs, n) i
        = (db1, errs ++ e.toList, n + (if u then 1 else 0)) := by
      unfold bulkStepOrm
      dsimp only
      rw [hb]
    rw [hstep, h.1]
    exact ih db (errs ++ e.toList) (n + (if u then 1 else 0))

/-- Claim C1: the claim says the candidate price of `apply_adjustment_rule`
is clamped into the product margin bounds before persisting.  In the
program, `apply_adjustment_rule` reads `rule.adjustment_type` right after
its lookups and cost guard, and the mapped `PriceAdjustmentRule` class
declares no such attribute (nor `min_margin` / `max_margin`): every call
raises, the one past the guards with exactly that `AttributeError`, so no
candidate price is ever computed, no clamp ever runs, and nothing is ever
persisted. -/
theorem apply_rule_always_raises :
    (∀ (db : DB) (pid rid : Nat) (bc : Option ℚ), ∃ e,
      applyAdjustmentRuleOrm db pid rid bc = .error e)
    ∧ (∀ (db : DB) (pid rid : Nat) (bc : Option ℚ) (p : Product) (r : Rule),
      db.findProduct pid = some p → db.findRule rid = some r →
      costOf bc p ≠ 0 →
      applyAdjustmentRuleOrm db pid rid bc = .error
        "AttributeError: PriceAdjustmentRule object has no attribute adjustment_type")
    ∧ "adjustment_type" ∉ priceAdjustmentRuleAttrs
    ∧ "min_margin" ∉ priceAdjustmentRuleAttrs
    ∧ "max_margin" ∉ priceAdjustmentRuleAttrs := by
  refine ⟨applyAdjustmentRuleOrm_error, ?_, by decide, by decide, by decide⟩
  intro db pid rid bc p r hp hr hc
  unfold applyAdjustmentRuleOrm
  rw [hp]
  dsimp only
  rw [hr]
  dsimp only
  rw [if_neg hc]
  rfl

/-- Claim C1, witness: on the concrete store `dbMarkup200` (product with
cost 100, markup rule) the hypotheses hold and the call raises the
`AttributeError`. -/
theorem apply_rule_always_raises_witness :
    dbMarkup200.findProduct 1 = some prodCost100
    ∧ dbMarkup200.findRule 7 = some ruleMarkup200
    ∧ costOf (some 100) prodCost100 ≠ 0
    ∧ applyAdjustmentRuleOrm dbMarkup200 1 7 (some 100) = .error
        "AttributeError: PriceAdjustmentRule object has no attribute adjustment_type" := by
  have hc : costOf (some 100) prodCost100 ≠ 0 := by
    norm_num [costOf, dtruthy]
  refine ⟨rfl, rfl, hc, ?_⟩
  exact apply_rule_always_raises.2.1 dbMarkup200 1 7 (some 100) prodCost100
    ruleMarkup200 rfl rfl hc

/-- Claim C2: the claim describes the scope-precedence order of the
auto-adjust resolver.  In the program, the first iteration of the
resolution loop of `_check_auto_adjust` reads `rule.product_id`, which the
mapped `PriceAdjustmentRule` class does not declare: with no active
`cost_plus` candidate the loop body never runs and the state is returned
unchanged, and with any candidate at all the call raises `AttributeError`
before comparing a single scope — the claimed precedence is never
exercised. -/
theorem auto_adjust_crashes_before_resolving :
    (∀ (db : DB) (p : Product) (c : ℚ),
      autoAdjustCandidates db.rules = [] →
      checkAutoAdjustOrm db p c = .ok db)
    ∧ (∀ (db : DB) (p : Product) (c : ℚ) (r : Rule) (rs : List Rule),
      autoAdjustCandidates db.rules = r :: rs →
      checkAutoAdjustOrm db p c = .error
        "AttributeError: PriceAdjustmentRule object has no attribute product_id") := by
  constructor
  · intro db p c h
    unfold checkAutoAdjustOrm
    rw [h]
    rfl
  · intro db p c r rs h
    unfold checkAutoAdjustOrm
    rw [h]
    rfl

/-- Claim C2, witness: a store holding a product-scoped rule (priority 5)
and a global rule (priority 100); the candidate list is nonempty (the
global rule scans first) and the call raises. -/
theorem auto_adjust_crashes_before_resolving_witness :
    autoAdjustCandidates dbScopedRules.rules = [ruleGlobal100, ruleProductScoped]
    ∧ checkAutoAdjustOrm dbScopedRules prodBrand2 12 = .error
        "AttributeError: PriceAdjustmentRule object has no attribute product_id" := by
  refine ⟨rfl, ?_⟩
  exact auto_adjust_crashes_before_resolving.2 dbScopedRules prodBrand2 12
    ruleGlobal100 [ruleProductScoped] rfl

/-- Claim C3: the `preview_only` flag of the bulk request is never read by
the endpoint — flipping it changes nothing — but the claimed divergence
(prices persisted as if the flag were off) is not what happens either: on a
product at 10.00 with a +10% request the computed price 11.00 differs from
the stored one, the `PriceHistory` constructor then raises `TypeError`
(`price_type` is not a declared column), the per-product handler records
the error, and the store is returned unchanged with zero products
updated. -/
theorem preview_flag_has_no_effect :
    previewReq.preview_only = true
    ∧ (∀ uid : Option Nat,
        bulkUpdateEndpointOrm dbPrice10 previewReq uid
          = bulkUpdateEndpointOrm dbPrice10
              { previewReq with preview_only := false } uid)
    ∧ bulkUpdateEndpointOrm dbPrice10 previewReq (some 9)
        = .ok (dbPrice10, ⟨1, 0, [⟨1,
            "TypeError: price_type is an invalid keyword argument for PriceHistory"⟩]⟩) := by
  refine ⟨rfl, fun uid => rfl, ?_⟩
  have hone : bulkOneOrm dbPrice10 (some 9) "percentage" 10 1
      = (dbPrice10, some ⟨1,
          "TypeError: price_type is an invalid keyword argument for PriceHistory"⟩,
        false) := by
    unfold bulkOneOrm
    rw [show dbPrice10.findProduct 1 = some prodPrice10 from rfl]
    dsimp only
    rw [show bulkCandidate "percentage" 10 prodPrice10.retail_price
        = some (10 + 10 * ((10 : ℚ) / 100)) from rfl]
    dsimp only
    rw [q2_eleven]
    rw [if_pos (show (11 : ℚ) ≠ prodPrice10.retail_price by
      norm_num [prodPrice10])]
    rfl
  unfold bulkUpdateEndpointOrm
  dsimp only [previewReq]
  unfold bulkPriceUpdateOrm
  simp only [List.foldl_cons, List.foldl_nil]
  unfold bulkStepOrm
  dsimp only
  rw [hone]
  rfl

/-- Claim C6: a run that computes a new price within one cent of the stored
one writes nothing — and in the program this holds for a reason stronger
than the claimed equality test: the bulk loop leaves the state untouched
and counts no update on every path (an equal price is skipped; a differing
one dies in the `PriceHistory` constructor before any write), and a rule
application never reaches its write at all. -/
theorem noop_within_cent :
    (∀ (db : DB) (uid : Option Nat) (ty : String) (v : ℚ) (pid : Nat)
        (p : Product) (raw : ℚ),
      db.findProduct pid = some p →
      bulkCandidate ty v p.retail_price = some raw →
      |q2 raw - p.retail_price| ≤ 1/100 →
      (bulkOneOrm db uid ty v pid).1 = db
      ∧ (bulkOneOrm db uid ty v pid).2.2 = false)
    ∧ (∀ (db : DB) (pid rid : Nat) (bc : Option ℚ) (out : DB),
      applyAdjustmentRuleOrm db pid rid bc = .ok out → False) := by
  constructor
  · intro db uid ty v pid p raw hp hc hnear
    exact bulkOneOrm_fst db uid ty v pid
  · intro db pid rid bc out h
    obtain ⟨e, he⟩ := applyAdjustmentRuleOrm_error db pid rid bc
    rw [he] at h
    exact Except.noConfusion h

/-- Claim C6, witness: a +0.01 fixed bulk adjustment on a product at 10.00
satisfies the within-one-cent hypothesis, and the run leaves the store
unchanged with no update counted. -/
theorem noop_within_cent_witness :
    dbPrice10.findProduct 1 = some prodPrice10
    ∧ bulkCandidate "fixed" (1/100) prodPrice10.retail_price
        = some (10 + 1/100)
    ∧ |q2 ((10 : ℚ) + 1/100) - prodPrice10.retail_price| ≤ 1/100
    ∧ (bulkOneOrm dbPrice10 none "fixed" (1/100) 1).1 = dbPrice10
    ∧ (bulkOneOrm dbPrice10 none "fixed" (1/100) 1).2.2 = false := by
  have h1 : dbPrice10.findProduct 1 = some prodPrice10 := rfl
  have h2 : bulkCandidate "fixed" (1/100) prodPrice10.retail_price
      = some (10 + 1/100) := rfl
  have h3 : |q2 ((10 : ℚ) + 1/100) - prodPrice10.retail_price| ≤ 1/100 := by
    rw [q2_ten_oh_one, show prodPrice10.retail_price = (10 : ℚ) from rfl,
      show (1001 : ℚ)/100 - 10 = 1/100 by norm_num,
      abs_of_nonneg (by norm_num : (0 : ℚ) ≤ 1/100)]
  obtain ⟨ha, hb⟩ := noop_within_cent.1 dbPrice10 none "fixed" (1/100) 1
    prodPrice10 (10 + 1/100) h1 h2 h3
  exact ⟨h1, h2, h3, ha, hb⟩

/-- Claim C7: the worked example (cost 50, 30% markup rule with margin
bounds, product policy `nearest_99`, expected persisted price 64.99 with
one history and one log row).  In the program the call raises
`AttributeError` at the `rule.adjustment_type` read before computing any
candidate: no price is persisted and no row of any kind is created; the
`price_rounding` column the example invokes is indeed on the product but is
never read by the service. -/
theorem spec_example_raises_attribute_error :
    applyAdjustmentRuleOrm dbMarkup30 1 7 (some 50) = .error
      "AttributeError: PriceAdjustmentRule object has no attribute adjustment_type"
    ∧ prodCost50.price_rounding = "nearest_99" := by
  constructor
  · unfold applyAdjustmentRuleOrm
    rw [show dbMarkup30.findProduct 1 = some prodCost50 from rfl]
    dsimp only
    rw [show dbMarkup30.findRule 7 = some ruleMarkup30 from rfl]
    dsimp only
    rw [if_neg (show ¬ costOf (some 50) prodCost50 = 0 by
      norm_num [costOf, dtruthy])]
    rfl
  · rfl

/-- Claim C4: the claim describes cost updates, history rows and re-pricing
during a supplier sync.  In the program `fetch_supplier_prices` raises
`AttributeError` at the `config.api_key` read for every input that passes
its guards (and raises earlier otherwise), so `sync_supplier_prices` always
raises before parsing; and even granted a parsed feed, a row whose fetched
cost differs from its stored `cost_price` dies in the `PriceHistory`
constructor — the per-row handler records the `TypeError` and the row keeps
its old cost, timestamps and price untouched. -/
theorem supplier_sync_always_fails :
    (∀ (s : SupplierRow) (cfg : SupplierAPIConfigRow) (data : Json),
      s.api_config = some cfg → cfg.is_active = true →
      fetchSupplierPricesOrm (some s) data = .error
        "AttributeError: SupplierAPIConfig object has no attribute api_key")
    ∧ (∀ (db : DB) (sid : Nat) (sup : Option SupplierRow) (data : Json),
      ∃ e, syncSupplierPricesOrm db sid sup data = .error e)
    ∧ (∀ (db : DB) (sid : Nat) (prices : List (Json × ℚ))
        (ps : ProductSupplier) (c : ℚ),
      assocGet prices (skuKey ps) = some c → c ≠ ps.cost_price →
      syncOneOrm db sid prices ps = (db, some ⟨ps.product_id,
        "TypeError: price_type is an invalid keyword argument for PriceHistory"⟩,
        false)) := by
  refine ⟨?_, ?_, ?_⟩
  · intro s cfg data hcfg hact
    unfold fetchSupplierPricesOrm
    dsimp only
    rw [hcfg]
    dsimp only
    rw [hact]
    rfl
  · intro db sid sup data
    obtain ⟨e, he⟩ := fetchSupplierPricesOrm_error sup data
    refine ⟨e, ?_⟩
    unfold syncSupplierPricesOrm
    rw [he]
    rfl
  · intro db sid prices ps c hget hne
    unfold syncOneOrm
    rw [hget]
    dsimp only
    rw [if_pos hne]
    rfl

/-- Claim C4, witness: an active supplier with an active API configuration
raises the `AttributeError`, and the row `psS` (stored cost 10) against a
feed reporting 12 records the `TypeError` and stays untouched. -/
theorem supplier_sync_always_fails_witness :
    supS3.api_config = some cfgS3
    ∧ cfgS3.is_active = true
    ∧ fetchSupplierPricesOrm (some supS3) feedS12 = .error
        "AttributeError: SupplierAPIConfig object has no attribute api_key"
    ∧ assocGet [(Json.str "S", (12 : ℚ))] (skuKey psS) = some 12
    ∧ (12 : ℚ) ≠ psS.cost_price
    ∧ syncOneOrm dbSync 3 [(Json.str "S", (12 : ℚ))] psS = (dbSync, some ⟨1,
        "TypeError: price_type is an invalid keyword argument for PriceHistory"⟩,
        false) := by
  have h4 : assocGet [(Json.str "S", (12 : ℚ))] (skuKey psS) = some 12 := rfl
  have h5 : (12 : ℚ) ≠ psS.cost_price := by
    norm_num [psS]
  have h6 := supplier_sync_always_fails.2.2 dbSync 3
    [(Json.str "S", (12 : ℚ))] psS 12 h4 h5
  exact ⟨rfl, rfl,
    supplier_sync_always_fails.1 supS3 cfgS3 feedS12 rfl rfl, h4, h5, h6⟩

/-- Claim C8: the claim relates retail history rows to the distinct prices
a product has held.  In the program no engine operation ever completes a
mutation: a bulk call leaves the state exactly as it was (each iteration
skips or records a constructor `TypeError`), and a rule application always
raises (rolled back to the unchanged state), so after any operation
sequence every product still holds its initial price and its retail audit
trail is exactly as before — for a fresh store, empty, with no row pairing
old and new values. -/
theorem engine_never_mutates :
    (∀ (db : DB) (op : EngineOp), runOpOrm db op = db)
    ∧ (∀ (db : DB) (ops : List EngineOp), runOpsOrm db ops = db)
    ∧ runOpsOrm dbPrice10 [EngineOp.bulk "set" 20 [1] none] = dbPrice10
    ∧ retailRowsFor dbPrice10 1 = []
    ∧ priceOf dbPrice10 1 = some 10 := by
  have h1 : ∀ (db : DB) (op : EngineOp), runOpOrm db op = db := by
    intro db op
    cases op with
    | bulk ty v ids uid =>
      show (bulkPriceUpdateOrm db ids ty v uid).1 = db
      unfold bulkPriceUpdateOrm
      exact bulkFoldOrm_fst uid ty v ids db [] 0
    | applyRule pid rid bc =>
      obtain ⟨e, he⟩ := applyAdjustmentRuleOrm_error db pid rid bc
      show (match applyAdjustmentRuleOrm db pid rid bc with
        | .ok db1 => db1
        | .error _ => db) = db
      rw [he]
  have h2 : ∀ (ops : List EngineOp) (db : DB), runOpsOrm db ops = db := by
    intro ops
    induction ops with
    | nil => intro db; rfl
    | cons op ops ih =>
      intro db
      show runOpsOrm (runOpOrm db op) ops = db
      rw [h1 db op]
      exact ih db
  exact ⟨h1, fun db ops => h2 ops db, h2 _ _, rfl, rfl⟩


end Pricing
